import Mathlib

/-!
Verification of the Smart HVAC Control System against its specification.

The Python sources are shallowly embedded: IEEE-754 float arithmetic is
modelled by exact rational arithmetic (`ℚ`), except where trigonometric
functions appear, which are modelled over `ℝ`.  Mutable objects become
explicit state records; methods return `output × new-state` pairs.
External library calls (`scipy.integrate.odeint`, the `skfuzzy`
inference engine, wall-clock `time.time()`) are abstracted as explicit
parameters, since their behaviour is outside the repository.
-/

namespace HVAC

/-! ## On-Off (bang-bang) controller — `src/controllers/onoff_controller.py` -/

/-- The per-channel temperature mode of `OnOffController`
(`'off'`, `'heating'`, `'cooling'`). -/
inductive TempState
  | off
  | heating
  | cooling
  deriving DecidableEq, Repr

/-- The per-channel humidity mode of `OnOffController`
(`'off'`, `'humidifying'`, `'dehumidifying'`). -/
inductive HumidityState
  | off
  | humidifying
  | dehumidifying
  deriving DecidableEq, Repr

/-- State of `OnOffController`: deadband plus the two hysteresis modes. -/
structure OnOffController where
  deadband : ℚ
  temp_state : TempState
  humidity_state : HumidityState
  deriving DecidableEq, Repr

/-- `OnOffController.__init__(deadband)`. -/
def OnOffController.init (deadband : ℚ := 1) : OnOffController :=
  { deadband := deadband, temp_state := .off, humidity_state := .off }

/-- `OnOffController.calculate_temperature_control`: returns the control
output together with the updated controller state. -/
def OnOffController.calculate_temperature_control
    (c : OnOffController) (setpoint current_value : ℚ) : ℚ × OnOffController :=
  let error := setpoint - current_value
  match c.temp_state with
  | .off =>
      if error > c.deadband then
        (100, { c with temp_state := .heating })
      else if error < -c.deadband then
        (-100, { c with temp_state := .cooling })
      else
        (0, c)
  | .heating =>
      if error < -c.deadband / 2 then
        (0, { c with temp_state := .off })
      else if error < -c.deadband then
        (-100, { c with temp_state := .cooling })
      else
        (100, c)
  | .cooling =>
      if error > c.deadband / 2 then
        (0, { c with temp_state := .off })
      else if error > c.deadband then
        (100, { c with temp_state := .heating })
      else
        (-100, c)

/-- `OnOffController.calculate_humidity_control`. -/
def OnOffController.calculate_humidity_control
    (c : OnOffController) (setpoint current_value : ℚ) : ℚ × OnOffController :=
  let error := setpoint - current_value
  let humidity_deadband := c.deadband * 2
  match c.humidity_state with
  | .off =>
      if error > humidity_deadband then
        (100, { c with humidity_state := .humidifying })
      else if error < -humidity_deadband then
        (-100, { c with humidity_state := .dehumidifying })
      else
        (0, c)
  | .humidifying =>
      if error < -humidity_deadband / 2 then
        (0, { c with humidity_state := .off })
      else if error < -humidity_deadband then
        (-100, { c with humidity_state := .dehumidifying })
      else
        (100, c)
  | .dehumidifying =>
      if error > humidity_deadband / 2 then
        (0, { c with humidity_state := .off })
      else if error > humidity_deadband then
        (100, { c with humidity_state := .humidifying })
      else
        (-100, c)

/-- Running `calculate_temperature_control` over a list of
`(setpoint, current_value)` pairs, collecting the outputs. -/
def OnOffController.runTemperature
    (c : OnOffController) : List (ℚ × ℚ) → List ℚ × OnOffController
  | [] => ([], c)
  | (sp, cv) :: rest =>
      let r := c.calculate_temperature_control sp cv
      let rec' := r.2.runTemperature rest
      (r.1 :: rec'.1, rec'.2)

/-! ## PID controller — `src/controllers/pid_controller.py` -/

/-- One per-channel PID state dictionary
(`{'last_error': …, 'integral': …, 'last_time': …}`);
`last_time = none` models Python's `None`. -/
structure PIDChannelState where
  last_error : ℚ
  integral : ℚ
  last_time : Option ℚ
  deriving DecidableEq, Repr

/-- Fresh PID channel state as built in `PIDController.__init__`. -/
def PIDChannelState.init : PIDChannelState :=
  { last_error := 0, integral := 0, last_time := none }

/-- The gains and output limits of a `PIDController`. -/
structure PIDParams where
  kp : ℚ
  ki : ℚ
  kd : ℚ
  out_min : ℚ
  out_max : ℚ
  deriving DecidableEq, Repr

/-- `PIDController._calculate_pid_output`.  `current_time` stands for the
ambient `time.time()` call.  Note the Python conditional-expression
precedence in the anti-windup guard: the whole comparison
`state['integral'] > limits[1]/ki` is the `if`-arm of
`… if self.ki != 0 else float('inf')`, so when `ki == 0` the guard is the
truthy `float('inf')` and the accumulator is reset to `0`. -/
def calculatePidOutput (p : PIDParams) (setpoint current_value current_time : ℚ)
    (st : PIDChannelState) : ℚ × PIDChannelState :=
  let error := setpoint - current_value
  match st.last_time with
  | none =>
      (0, { st with last_time := some current_time, last_error := error })
  | some last_time =>
      let dt := current_time - last_time
      if dt ≤ 0 then
        (0, st)
      else
        let proportional := p.kp * error
        let i₁ := st.integral + error * dt
        let i₂ :=
          if (if p.ki ≠ 0 then i₁ > p.out_max / p.ki else True) then
            (if p.ki ≠ 0 then p.out_max / p.ki else 0)
          else if (if p.ki ≠ 0 then i₁ < p.out_min / p.ki else True) then
            (if p.ki ≠ 0 then p.out_min / p.ki else 0)
          else
            i₁
        let integral := p.ki * i₂
        let derivative := p.kd * (error - st.last_error) / dt
        let output := proportional + integral + derivative
        let output := max (min output p.out_max) p.out_min
        (output, { last_error := error, integral := i₂,
                   last_time := some current_time })

/-! ## Fuzzy controller — `src/controllers/fuzzy_controller.py`

The `skfuzzy` control-system simulators are external library objects; the
inference step (`simulator.compute()` followed by reading
`simulator.output[...]`) is abstracted as a function returning
`Option ℚ`, where `none` models the `except:` path (any exception raised
by the computation). -/

/-- The repository-owned state of `FuzzyController`: the stored previous
errors used for the error-rate input. -/
structure FuzzyController where
  prev_temp_error : ℚ
  prev_humidity_error : ℚ
  deriving DecidableEq, Repr

/-- `np.clip(x, lo, hi)` for `lo ≤ hi`. -/
def npClip (x lo hi : ℚ) : ℚ := min (max x lo) hi

/-- `FuzzyController.calculate_temperature_control`.  `inference e r`
models the skfuzzy temperature simulator run on clamped inputs `e`, `r`;
`none` models a raised exception. -/
def FuzzyController.calculate_temperature_control
    (inference : ℚ → ℚ → Option ℚ) (c : FuzzyController)
    (setpoint current_value : ℚ) : ℚ × FuzzyController :=
  let error := setpoint - current_value
  let error_rate := error - c.prev_temp_error
  let c' := { c with prev_temp_error := error }
  let e := npClip error (-10) 10
  let r := npClip error_rate (-5) 5
  let output :=
    match inference e r with
    | some o => o
    | none => e * 5
  (npClip output (-100) 100, c')

/-- `FuzzyController.calculate_humidity_control`.  `inference e` models
the skfuzzy humidity simulator run on the clamped input `e`. -/
def FuzzyController.calculate_humidity_control
    (inference : ℚ → Option ℚ) (c : FuzzyController)
    (setpoint current_value : ℚ) : ℚ × FuzzyController :=
  let error := setpoint - current_value
  let c' := { c with prev_humidity_error := error }
  let e := npClip error (-20) 20
  let output :=
    match inference e with
    | some o => o
    | none => e * 2
  (npClip output (-100) 100, c')

/-! ## Sensor manager — `src/sensors/sensor_manager.py`

Only the fault-detection path is needed by the claims.  The sensor
history `self.sensor_history` (a dict from sensor id to a list of
readings, iterated in insertion order) is modelled as an association
list. -/

/-- The `SensorReading` dataclass.  A `'fault'` reading stores `NaN` in
Python; the `value` field of non-`'ok'` readings is never inspected by
fault detection, so `ℚ` suffices. -/
structure SensorReading where
  timestamp : ℚ
  value : ℚ
  sensor_id : String
  sensor_type : String
  status : String
  deriving DecidableEq, Repr

/-- `readings[-5:]`. -/
def recentFive (readings : List SensorReading) : List SensorReading :=
  readings.drop (readings.length - 5)

/-- `fault_count`: non-`'ok'` readings among the most recent 5. -/
def faultCount (readings : List SensorReading) : ℕ :=
  (recentFive readings).countP (fun r => r.status ≠ "ok")

/-- `values`: the values of `'ok'`-status readings among the most
recent 5. -/
def okValues (readings : List SensorReading) : List ℚ :=
  ((recentFive readings).filter (fun r => r.status = "ok")).map (·.value)

/-- The ids appended for one sensor in the loop body of
`SensorManager.detect_sensor_faults` (first the consecutive-fault check,
then the stuck-value check, which compares `len(set(values)) == 1`). -/
def sensorFaultFlags (sensor_id : String) (readings : List SensorReading) :
    List String :=
  if readings.length ≥ 5 then
    (if faultCount readings ≥ 3 then [sensor_id] else []) ++
      (if (okValues readings).length ≥ 3 ∧ (okValues readings).dedup.length = 1
        then [sensor_id] else [])
  else
    []

/-- `SensorManager.detect_sensor_faults` over the sensor-history
association list. -/
def detect_sensor_faults (sensor_history : List (String × List SensorReading)) :
    List String :=
  sensor_history.foldr (fun p acc => sensorFaultFlags p.1 p.2 ++ acc) []

/-! ## Thermal model — `src/simulation/thermal_model.py`

Floating-point state becomes `ℝ` (the outdoor-condition update uses
`np.sin`).  `scipy.integrate.odeint` is an external numerical solver;
its result for one step is passed to `update` as the two parameters
`solved_indoor`, `solved_wall`.  The building-parameter dictionary
fields `thermal_mass`, `ua_envelope`, `internal_gains`, `solar_gains`
and `floor_area` are referenced only inside the abstracted ODE
right-hand side, so the embedded parameter record keeps the fields read
elsewhere. -/

noncomputable section ThermalSection

/-- The building parameters read outside the ODE solver. -/
structure ThermalParams where
  ua_infiltration : ℝ
  volume : ℝ

/-- The default building-parameter values from `ThermalModel.__init__`. -/
def defaultThermalParams : ThermalParams :=
  { ua_infiltration := 200, volume := 3000 }

/-- One row of `self.history` (one appended sample per key). -/
structure LogEntry where
  time : ℝ
  indoor_temp : ℝ
  wall_temp : ℝ
  indoor_humidity : ℝ
  outdoor_temp : ℝ
  hvac_heating : ℝ
  hvac_cooling : ℝ
  energy_consumption : ℝ

/-- The mutable state of a `ThermalModel`. -/
structure ThermalModel where
  params : ThermalParams
  indoor_temp : ℝ
  wall_temp : ℝ
  indoor_humidity : ℝ
  outdoor_temp : ℝ
  outdoor_humidity : ℝ
  time : ℝ
  history : List LogEntry

/-- `ThermalModel.__init__(building_params)`. -/
def ThermalModel.init (params : ThermalParams := defaultThermalParams) :
    ThermalModel :=
  { params := params
    indoor_temp := 22
    wall_temp := 20
    indoor_humidity := 45
    outdoor_temp := 15
    outdoor_humidity := 60
    time := 0
    history := [] }

/-- `self.hvac_heating_capacity` (W), fixed in `__init__`. -/
def hvac_heating_capacity : ℝ := 20000

/-- `self.hvac_cooling_capacity` (W), fixed in `__init__`. -/
def hvac_cooling_capacity : ℝ := 15000

/-- `self.hvac_efficiency`, fixed in `__init__`. -/
def hvac_efficiency : ℝ := 9 / 10

/-- `self.dt` (seconds), fixed in `__init__`. -/
def thermalDt : ℝ := 60

/-- Python float `%` for a positive modulus. -/
def fmod (x y : ℝ) : ℝ := x - y * ⌊x / y⌋

/-- `np.clip` over the reals. -/
def npClipR (x lo hi : ℝ) : ℝ := min (max x lo) hi

/-- `ThermalModel._update_outdoor_conditions`. -/
def ThermalModel.update_outdoor_conditions (m : ThermalModel) : ThermalModel :=
  let hour_of_day := fmod m.time 86400 / 3600
  let daily_temp_variation := 8 * Real.sin (2 * Real.pi * (hour_of_day - 6) / 24)
  let day_of_year := fmod m.time (365 * 86400) / 86400
  let seasonal_variation := 10 * Real.sin (2 * Real.pi * (day_of_year - 80) / 365)
  let outdoor_temp := 15 + daily_temp_variation + seasonal_variation
  let outdoor_humidity := 70 - 1 / 2 * (outdoor_temp - 15)
  { m with outdoor_temp := outdoor_temp
           outdoor_humidity := npClipR outdoor_humidity 20 90 }

/-- `ThermalModel._update_humidity`. -/
def ThermalModel.update_humidity (m : ThermalModel)
    (humidity_control_output : ℝ) : ThermalModel :=
  let moisture_generation : ℝ := 2
  let moisture_infiltration :=
    m.params.ua_infiltration / 1000 *
      (m.outdoor_humidity - m.indoor_humidity) * (1 / 100)
  let moisture_hvac :=
    if humidity_control_output > 0 then
      humidity_control_output / 100 * 5
    else
      humidity_control_output / 100 * 3
  let total_moisture_change :=
    (moisture_generation + moisture_infiltration + moisture_hvac) * thermalDt / 3600
  let humidity_change := total_moisture_change * 1000 / m.params.volume
  { m with indoor_humidity := npClipR (m.indoor_humidity + humidity_change) 20 80 }

/-- `ThermalModel._calculate_energy_consumption`. -/
def calculate_energy_consumption (hvac_heating hvac_cooling : ℝ) : ℝ :=
  let heating_energy := hvac_heating / hvac_efficiency
  let cooling_energy := hvac_cooling / (5 / 2)
  let fan_energy : ℝ := if hvac_heating > 0 ∨ hvac_cooling > 0 then 500 else 100
  heating_energy + cooling_energy + fan_energy

/-- `ThermalModel._log_data`: append one sample, then evict the oldest
sample while more than `max_history = 1440` are stored. -/
def ThermalModel.log_data (m : ThermalModel)
    (hvac_heating hvac_cooling energy_consumption : ℝ) : ThermalModel :=
  let entry : LogEntry :=
    { time := m.time
      indoor_temp := m.indoor_temp
      wall_temp := m.wall_temp
      indoor_humidity := m.indoor_humidity
      outdoor_temp := m.outdoor_temp
      hvac_heating := hvac_heating
      hvac_cooling := hvac_cooling
      energy_consumption := energy_consumption }
  let h := m.history ++ [entry]
  { m with history := if h.length > 1440 then h.tail else h }

/-- `ThermalModel.update`.  `solved_indoor`/`solved_wall` are the
end-of-step temperatures returned by the external `odeint` call. -/
def ThermalModel.update (m : ThermalModel)
    (temp_control_output humidity_control_output : ℝ)
    (solved_indoor solved_wall : ℝ) : ThermalModel :=
  let m₁ := m.update_outdoor_conditions
  let hvac_heating := max 0 temp_control_output / 100 * hvac_heating_capacity
  let hvac_cooling := max 0 (-temp_control_output) / 100 * hvac_cooling_capacity
  let m₂ := { m₁ with indoor_temp := solved_indoor, wall_temp := solved_wall }
  let m₃ := m₂.update_humidity humidity_control_output
  let energy := calculate_energy_consumption hvac_heating hvac_cooling
  let m₄ := m₃.log_data hvac_heating hvac_cooling energy
  { m₄ with time := m₄.time + thermalDt }

/-- The snapshot dictionary returned by `ThermalModel.get_current_state`. -/
structure ThermalSnapshot where
  indoor_temperature : ℝ
  wall_temperature : ℝ
  indoor_humidity : ℝ
  outdoor_temperature : ℝ
  outdoor_humidity : ℝ
  time : ℝ

/-- `ThermalModel.get_current_state`. -/
def ThermalModel.get_current_state (m : ThermalModel) : ThermalSnapshot :=
  { indoor_temperature := m.indoor_temp
    wall_temperature := m.wall_temp
    indoor_humidity := m.indoor_humidity
    outdoor_temperature := m.outdoor_temp
    outdoor_humidity := m.outdoor_humidity
    time := m.time }

/-- `ThermalModel.reset`. -/
def ThermalModel.reset (m : ThermalModel) : ThermalModel :=
  { m with indoor_temp := 22
           wall_temp := 20
           indoor_humidity := 45
           time := 0
           history := [] }

/-- A sequence of `update` calls; each list element carries the two
control outputs and the two solver results for that step. -/
def ThermalModel.runUpdates (m : ThermalModel) :
    List (ℝ × ℝ × ℝ × ℝ) → ThermalModel
  | [] => m
  | (t, h, si, sw) :: rest => (m.update t h si sw).runUpdates rest

end ThermalSection

/-! ## Helper lemmas -/

/-- When the mode is `off` and the error is strictly inside the half
deadband, a temperature call is a no-op returning 0. -/
lemma onoff_off_step (c : OnOffController) (sp cv : ℚ)
    (hc : c.temp_state = .off) (h : |sp - cv| < c.deadband / 2) :
    c.calculate_temperature_control sp cv = (0, c) := by
  obtain ⟨d, ts, hs⟩ := c
  simp only at hc h
  subst hc
  have habs := abs_nonneg (sp - cv)
  have hd : 0 < d := by linarith
  rw [abs_lt] at h
  simp only [OnOffController.calculate_temperature_control]
  rw [if_neg (by push_neg; linarith), if_neg (by push_neg; linarith)]

/-! ## Claims -/

/-- **C1, counterexample.**  With deadband 1 and temperature mode
`heating`, a call with error `-2 < -deadband` returns `0` and moves the
mode to `off`, not `-100` and `cooling` as the claim states. -/
theorem C1_counterexample :
    ((OnOffController.mk 1 .heating .off).calculate_temperature_control 0 2).1 = 0 ∧
    ((OnOffController.mk 1 .heating .off).calculate_temperature_control 0 2).2.temp_state
      = TempState.off ∧
    ((OnOffController.mk 1 .heating .off).calculate_temperature_control 0 2).1 ≠ -100 ∧
    ((OnOffController.mk 1 .heating .off).calculate_temperature_control 0 2).2.temp_state
      ≠ TempState.cooling := by
  refine ⟨?_, ?_, ?_, ?_⟩ <;>
    norm_num [OnOffController.calculate_temperature_control]
  decide

/-- **C1, amended.**  For positive deadband, from mode `heating` a call
with `error < -deadband` transitions to `off` and returns `0` (the
`error < -deadband` branch is shadowed by the `error < -deadband/2`
branch); symmetrically, from `cooling` a call with `error > deadband`
transitions to `off` and returns `0`. -/
theorem C1_amended (c : OnOffController) (sp cv : ℚ) (hd : 0 < c.deadband) :
    (c.temp_state = .heating → sp - cv < -c.deadband →
      c.calculate_temperature_control sp cv =
        (0, { c with temp_state := .off })) ∧
    (c.temp_state = .cooling → c.deadband < sp - cv →
      c.calculate_temperature_control sp cv =
        (0, { c with temp_state := .off })) := by
  obtain ⟨d, ts, hs⟩ := c
  simp only at hd ⊢
  constructor
  · intro hts he
    subst hts
    simp only [OnOffController.calculate_temperature_control]
    rw [if_pos (by linarith)]
  · intro hts he
    subst hts
    simp only [OnOffController.calculate_temperature_control]
    rw [if_pos (by linarith)]

/-- Witness for `C1_amended` at deadband 1, mode `heating`, error `-2`. -/
theorem C1_amended_witness :
    (0:ℚ) < 1 ∧ (0:ℚ) - 2 < -1 ∧
    (OnOffController.mk 1 .heating .off).calculate_temperature_control 0 2 =
      (0, OnOffController.mk 1 .off .off) :=
  ⟨by norm_num, by norm_num,
    (C1_amended (OnOffController.mk 1 .heating .off) 0 2 (by norm_num)).1
      rfl (by norm_num)⟩

/-- **C9, confirmed.**  Starting from mode `off`, a sequence of
temperature calls whose errors all satisfy `|error| < deadband/2`
returns `0` at every step and never changes the mode. -/
theorem C9_off_mode_stable (c : OnOffController) (inputs : List (ℚ × ℚ))
    (hc : c.temp_state = .off)
    (h : ∀ p ∈ inputs, |p.1 - p.2| < c.deadband / 2) :
    (c.runTemperature inputs).1 = List.replicate inputs.length 0 ∧
    (c.runTemperature inputs).2 = c := by
  induction inputs with
  | nil => exact ⟨rfl, rfl⟩
  | cons p rest ih =>
      obtain ⟨sp, cv⟩ := p
      have hstep := onoff_off_step c sp cv hc (h (sp, cv) (List.mem_cons_self _ _))
      have hrest := ih fun q hq => h q (List.mem_cons_of_mem _ hq)
      simp only [OnOffController.runTemperature, hstep, List.length_cons,
        List.replicate_succ]
      exact ⟨by rw [hrest.1], hrest.2⟩

/-- Witness for `C9_off_mode_stable`: two in-band calls with deadband 1. -/
theorem C9_off_mode_stable_witness :
    (OnOffController.mk 1 .off .off).temp_state = .off ∧
    ((OnOffController.mk 1 .off .off).runTemperature [(0, 1/4), (1/4, 0)]).1 =
      [0, 0] ∧
    ((OnOffController.mk 1 .off .off).runTemperature [(0, 1/4), (1/4, 0)]).2 =
      OnOffController.mk 1 .off .off := by
  have := C9_off_mode_stable (OnOffController.mk 1 .off .off) [(0, 1/4), (1/4, 0)]
    rfl (by intro p hp; fin_cases hp <;> norm_num [abs_lt])
  exact ⟨rfl, this.1, this.2⟩

/-- Bounds of `npClip` when the clamp interval is well formed. -/
lemma npClip_mem (x lo hi : ℚ) (h : lo ≤ hi) :
    lo ≤ npClip x lo hi ∧ npClip x lo hi ≤ hi :=
  ⟨le_min (le_max_right _ _) h, min_le_right _ _⟩

/-- **C3, confirmed.**  On a non-first PID call with positive time delta:
with `ki > 0` (and well-formed output limits) the updated integral
accumulator lies in `[out_min/ki, out_max/ki]`; with `ki = 0` it is
forced to `0`. -/
theorem C3_integral_antiwindup (p : PIDParams) (sp cv now lt : ℚ)
    (st : PIDChannelState) (hlt : st.last_time = some lt)
    (hdt : 0 < now - lt) :
    (0 < p.ki → p.out_min ≤ p.out_max →
      p.out_min / p.ki ≤ ((calculatePidOutput p sp cv now st).2).integral ∧
      ((calculatePidOutput p sp cv now st).2).integral ≤ p.out_max / p.ki) ∧
    (p.ki = 0 → ((calculatePidOutput p sp cv now st).2).integral = 0) := by
  obtain ⟨le, integ, olt⟩ := st
  simp only at hlt
  subst hlt
  simp only [calculatePidOutput, not_le.mpr hdt, if_false]
  constructor
  · intro hki hlim
    have hki' : p.ki ≠ 0 := ne_of_gt hki
    have hdiv : p.out_min / p.ki ≤ p.out_max / p.ki := by gcongr
    simp only [hki', ne_eq, not_false_eq_true, if_true]
    split_ifs with h₁ h₂
    · exact ⟨hdiv, le_refl _⟩
    · exact ⟨le_refl _, hdiv⟩
    · push_neg at h₁ h₂
      exact ⟨h₂, h₁⟩
  · intro hki
    simp [hki]

/-- Witness for `C3_integral_antiwindup` with `ki = 1`, limits
`(-100, 100)`, one prior call. -/
theorem C3_integral_antiwindup_witness :
    (-100 : ℚ) / 1 ≤
      ((calculatePidOutput ⟨1, 1, 0, -100, 100⟩ 1 0 1
        ⟨0, 0, some 0⟩).2).integral ∧
    ((calculatePidOutput ⟨1, 1, 0, -100, 100⟩ 1 0 1
      ⟨0, 0, some 0⟩).2).integral ≤ (100 : ℚ) / 1 :=
  (C3_integral_antiwindup ⟨1, 1, 0, -100, 100⟩ 1 0 1 0 ⟨0, 0, some 0⟩ rfl
    (by norm_num)).1 (by norm_num) (by norm_num)

/-- **C5, confirmed.**  Every controller variant keeps both channel
outputs in `[-100, 100]`: the PID with its default limits for all gains
and states, the on-off controller for all states, and the fuzzy
controller for every behaviour of the external inference engine. -/
theorem C5_output_bounds :
    (∀ (kp ki kd sp cv now : ℚ) (st : PIDChannelState),
      -100 ≤ (calculatePidOutput ⟨kp, ki, kd, -100, 100⟩ sp cv now st).1 ∧
      (calculatePidOutput ⟨kp, ki, kd, -100, 100⟩ sp cv now st).1 ≤ 100) ∧
    (∀ (c : OnOffController) (sp cv : ℚ),
      (-100 ≤ (c.calculate_temperature_control sp cv).1 ∧
        (c.calculate_temperature_control sp cv).1 ≤ 100) ∧
      (-100 ≤ (c.calculate_humidity_control sp cv).1 ∧
        (c.calculate_humidity_control sp cv).1 ≤ 100)) ∧
    (∀ (inft : ℚ → ℚ → Option ℚ) (infh : ℚ → Option ℚ)
        (f : FuzzyController) (sp cv : ℚ),
      (-100 ≤ (FuzzyController.calculate_temperature_control inft f sp cv).1 ∧
        (FuzzyController.calculate_temperature_control inft f sp cv).1 ≤ 100) ∧
      (-100 ≤ (FuzzyController.calculate_humidity_control infh f sp cv).1 ∧
        (FuzzyController.calculate_humidity_control infh f sp cv).1 ≤ 100)) := by
  refine ⟨?_, ?_, ?_⟩
  · intro kp ki kd sp cv now st
    obtain ⟨le, integ, olt⟩ := st
    cases olt with
    | none => simp [calculatePidOutput]
    | some lt =>
        simp only [calculatePidOutput]
        split_ifs <;> norm_num
  · intro c sp cv
    obtain ⟨d, ts, hs⟩ := c
    constructor
    · cases ts <;>
        · simp only [OnOffController.calculate_temperature_control]
          split_ifs <;> norm_num
    · cases hs <;>
        · simp only [OnOffController.calculate_humidity_control]
          split_ifs <;> norm_num
  · intro inft infh f sp cv
    exact ⟨npClip_mem _ _ _ (by norm_num), npClip_mem _ _ _ (by norm_num)⟩

/-- **C6, confirmed.**  A first PID call (no stored timestamp) returns
`0` and seeds `last_time` and `last_error`; a later call with
non-positive time delta returns `0` and leaves the channel state
untouched. -/
theorem C6_first_call_and_clock_guard (p : PIDParams) (sp cv now : ℚ)
    (st : PIDChannelState) :
    (st.last_time = none →
      calculatePidOutput p sp cv now st =
        (0, { st with last_time := some now, last_error := sp - cv })) ∧
    (∀ lt, st.last_time = some lt → now - lt ≤ 0 →
      calculatePidOutput p sp cv now st = (0, st)) := by
  obtain ⟨le, integ, olt⟩ := st
  constructor
  · intro h
    simp only at h
    subst h
    rfl
  · intro lt h hdt
    simp only at h
    subst h
    simp only [calculatePidOutput, if_pos hdt]

/-- Witness for `C6_first_call_and_clock_guard`: a first call, and a
call whose timestamp is behind the stored one. -/
theorem C6_first_call_and_clock_guard_witness :
    calculatePidOutput ⟨1, 0, 0, -100, 100⟩ 1 0 5 ⟨0, 0, none⟩ =
      (0, ⟨1 - 0, 0, some 5⟩) ∧
    calculatePidOutput ⟨1, 0, 0, -100, 100⟩ 1 0 5 ⟨0, 0, some 7⟩ =
      (0, ⟨0, 0, some 7⟩) :=
  ⟨(C6_first_call_and_clock_guard ⟨1, 0, 0, -100, 100⟩ 1 0 5 ⟨0, 0, none⟩).1 rfl,
    (C6_first_call_and_clock_guard ⟨1, 0, 0, -100, 100⟩ 1 0 5 ⟨0, 0, some 7⟩).2
      7 rfl (by norm_num)⟩

/-- **C8, confirmed.**  The stored previous temperature error is updated
to the raw new error on every temperature call, and when the abstracted
inference engine fails (`none`, modelling a raised exception) the output
is the clamped error times the fixed fallback gain (5 for temperature,
2 for humidity), clamped to `[-100, 100]`. -/
theorem C8_fuzzy_fallback (inft : ℚ → ℚ → Option ℚ) (infh : ℚ → Option ℚ)
    (c : FuzzyController) (sp cv : ℚ) :
    ((FuzzyController.calculate_temperature_control inft c sp cv).2.prev_temp_error
      = sp - cv) ∧
    (inft (npClip (sp - cv) (-10) 10)
        (npClip (sp - cv - c.prev_temp_error) (-5) 5) = none →
      (FuzzyController.calculate_temperature_control inft c sp cv).1 =
        npClip (npClip (sp - cv) (-10) 10 * 5) (-100) 100) ∧
    (infh (npClip (sp - cv) (-20) 20) = none →
      (FuzzyController.calculate_humidity_control infh c sp cv).1 =
        npClip (npClip (sp - cv) (-20) 20 * 2) (-100) 100) := by
  refine ⟨rfl, ?_, ?_⟩
  · intro h
    simp only [FuzzyController.calculate_temperature_control, h]
  · intro h
    simp only [FuzzyController.calculate_humidity_control, h]

/-- Witness for `C8_fuzzy_fallback` with an inference engine that always
fails. -/
theorem C8_fuzzy_fallback_witness :
    ((FuzzyController.calculate_temperature_control (fun _ _ => none)
      ⟨0, 0⟩ 1 0).2.prev_temp_error = 1 - 0) ∧
    ((FuzzyController.calculate_temperature_control (fun _ _ => none)
      ⟨0, 0⟩ 1 0).1 = npClip (npClip (1 - 0) (-10) 10 * 5) (-100) 100) ∧
    ((FuzzyController.calculate_humidity_control (fun _ => none)
      ⟨0, 0⟩ 1 0).1 = npClip (npClip (1 - 0) (-20) 20 * 2) (-100) 100) := by
  have h := C8_fuzzy_fallback (fun _ _ => none) (fun _ => none) ⟨0, 0⟩ 1 0
  exact ⟨h.1, h.2.1 rfl, h.2.2 rfl⟩

/-- Flag-list membership for a single sensor. -/
lemma mem_sensorFaultFlags {x a : String} {rs : List SensorReading} :
    x ∈ sensorFaultFlags a rs ↔
      x = a ∧ 5 ≤ rs.length ∧
        (3 ≤ faultCount rs ∨
          (3 ≤ (okValues rs).length ∧ (okValues rs).dedup.length = 1)) := by
  unfold sensorFaultFlags
  split_ifs <;> simp_all

/-- Membership in the output of `detect_sensor_faults`. -/
lemma mem_detect_sensor_faults (hist : List (String × List SensorReading))
    (idn : String) :
    idn ∈ detect_sensor_faults hist ↔
      ∃ rs, (idn, rs) ∈ hist ∧ 5 ≤ rs.length ∧
        (3 ≤ faultCount rs ∨
          (3 ≤ (okValues rs).length ∧ (okValues rs).dedup.length = 1)) := by
  induction hist with
  | nil => simp [detect_sensor_faults]
  | cons p rest ih =>
      obtain ⟨a, rs⟩ := p
      simp only [detect_sensor_faults, List.foldr_cons, List.mem_append] at ih ⊢
      rw [mem_sensorFaultFlags]
      simp only [List.mem_cons, Prod.mk.injEq]
      constructor
      · rintro (⟨hx, h5, hc⟩ | h)
        · exact ⟨rs, Or.inl ⟨hx, rfl⟩, h5, hc⟩
        · obtain ⟨rs', hmem, hc⟩ := ih.mp h
          exact ⟨rs', Or.inr hmem, hc⟩
      · rintro ⟨rs', (⟨hx, hrs⟩ | hmem), hc⟩
        · subst hx
          subst hrs
          exact Or.inl ⟨rfl, hc⟩
        · exact Or.inr (ih.mpr ⟨rs', hmem, hc⟩)

/-- `countP` of a predicate plus `countP` of its complement is the
length, specialised to the ok-status split. -/
lemma countP_status_split (l : List SensorReading) :
    l.countP (fun r => r.status ≠ "ok") + l.countP (fun r => r.status = "ok")
      = l.length := by
  induction l with
  | nil => simp
  | cons r t iht =>
      simp only [List.countP_cons, List.length_cons]
      by_cases h : r.status = "ok" <;> simp [h] at iht ⊢ <;> omega

/-- Within one 5-entry window, at least 3 faulty readings and at least 3
ok values cannot coexist. -/
lemma fault_stuck_mutex {rs : List SensorReading} (h5 : 5 ≤ rs.length)
    (h1 : 3 ≤ faultCount rs) (h2 : 3 ≤ (okValues rs).length) : False := by
  have hlen : (recentFive rs).length = 5 := by
    simp only [recentFive, List.length_drop]
    omega
  have hsum := countP_status_split (recentFive rs)
  rw [hlen] at hsum
  unfold faultCount at h1
  unfold okValues at h2
  rw [List.length_map, ← List.countP_eq_length_filter] at h2
  omega

/-- The per-sensor flag list never repeats an id. -/
lemma count_sensorFaultFlags_le (a : String) (rs : List SensorReading)
    (x : String) : (sensorFaultFlags a rs).count x ≤ 1 := by
  unfold sensorFaultFlags
  by_cases h5 : rs.length ≥ 5
  · rw [if_pos h5]
    by_cases h1 : faultCount rs ≥ 3
    · have h2 : ¬(3 ≤ (okValues rs).length ∧ (okValues rs).dedup.length = 1) := by
        rintro ⟨hc, -⟩
        exact fault_stuck_mutex h5 h1 hc
      rw [if_pos h1, if_neg h2]
      exact le_of_le_of_eq (List.count_le_length _ _) (by simp)
    · rw [if_neg h1, List.nil_append]
      split_ifs with h2
      · exact le_of_le_of_eq (List.count_le_length _ _) (by simp)
      · simp
  · rw [if_neg h5]
    simp

/-- **C4, counterexample.**  A sensor whose entire history is 3
identical `Ok` readings (and zero faults) is not flagged: the detector
skips any sensor with fewer than 5 history entries. -/
theorem C4_counterexample :
    detect_sensor_faults
      [("temp_zone1",
        [⟨0, 5, "temp_zone1", "temperature", "ok"⟩,
         ⟨1, 5, "temp_zone1", "temperature", "ok"⟩,
         ⟨2, 5, "temp_zone1", "temperature", "ok"⟩])] = [] ∧
    ([⟨0, 5, "temp_zone1", "temperature", "ok"⟩,
      ⟨1, 5, "temp_zone1", "temperature", "ok"⟩,
      ⟨2, 5, "temp_zone1", "temperature", "ok"⟩] :
        List SensorReading).countP (fun r => r.status ≠ "ok") = 0 ∧
    (([⟨0, 5, "temp_zone1", "temperature", "ok"⟩,
       ⟨1, 5, "temp_zone1", "temperature", "ok"⟩,
       ⟨2, 5, "temp_zone1", "temperature", "ok"⟩] :
        List SensorReading).map (·.value)).dedup.length = 1 := by
  refine ⟨?_, by decide, by decide⟩
  simp [detect_sensor_faults, sensorFaultFlags]

/-- **C4, amended.**  `detect_sensor_faults` flags a sensor exactly when
it has at least 5 history entries and, over the most recent 5, either at
least 3 are non-`Ok`, or the `Ok` values number at least 3 and are all
identical; sensors with fewer than 5 entries are never flagged. -/
theorem C4_fault_detection (hist : List (String × List SensorReading))
    (idn : String) :
    idn ∈ detect_sensor_faults hist ↔
      ∃ rs, (idn, rs) ∈ hist ∧ 5 ≤ rs.length ∧
        (3 ≤ faultCount rs ∨
          (3 ≤ (okValues rs).length ∧ (okValues rs).dedup.length = 1)) :=
  mem_detect_sensor_faults hist idn

/-- **C10, confirmed.**  With distinct sensor ids, the fault list
contains each id at most once: the ≥3-faults and stuck-value conditions
are mutually exclusive inside one 5-entry window. -/
theorem C10_each_id_at_most_once (hist : List (String × List SensorReading))
    (hnd : (hist.map Prod.fst).Nodup) (idn : String) :
    (detect_sensor_faults hist).count idn ≤ 1 := by
  induction hist with
  | nil => simp [detect_sensor_faults]
  | cons p rest ih =>
      obtain ⟨a, rs⟩ := p
      simp only [List.map_cons, List.nodup_cons] at hnd
      by_cases hx : idn = a
      · subst hx
        have h0 : (detect_sensor_faults rest).count idn = 0 := by
          rw [List.count_eq_zero]
          intro hmem
          obtain ⟨rs', hmem', -⟩ := (mem_detect_sensor_faults rest idn).mp hmem
          exact hnd.1 (List.mem_map.mpr ⟨(idn, rs'), hmem', rfl⟩)
        have h1 := count_sensorFaultFlags_le idn rs idn
        simp only [detect_sensor_faults, List.foldr_cons, List.count_append]
        simp only [detect_sensor_faults] at h0
        omega
      · have h1 : (sensorFaultFlags a rs).count idn = 0 := by
          rw [List.count_eq_zero]
          intro hmem
          exact hx (mem_sensorFaultFlags.mp hmem).1
        have h2 := ih hnd.2
        simp only [detect_sensor_faults, List.foldr_cons, List.count_append]
        simp only [detect_sensor_faults] at h2
        omega

/-- Witness for `C10_each_id_at_most_once`: one sensor with five faulty
readings. -/
theorem C10_each_id_at_most_once_witness :
    (([("temp_zone1",
        [⟨0, 0, "temp_zone1", "temperature", "fault"⟩,
         ⟨1, 0, "temp_zone1", "temperature", "fault"⟩,
         ⟨2, 0, "temp_zone1", "temperature", "fault"⟩,
         ⟨3, 0, "temp_zone1", "temperature", "fault"⟩,
         ⟨4, 0, "temp_zone1", "temperature", "fault"⟩])] :
      List (String × List SensorReading)).map Prod.fst).Nodup ∧
    (detect_sensor_faults
      [("temp_zone1",
        [⟨0, 0, "temp_zone1", "temperature", "fault"⟩,
         ⟨1, 0, "temp_zone1", "temperature", "fault"⟩,
         ⟨2, 0, "temp_zone1", "temperature", "fault"⟩,
         ⟨3, 0, "temp_zone1", "temperature", "fault"⟩,
         ⟨4, 0, "temp_zone1", "temperature", "fault"⟩])]).count "temp_zone1"
      ≤ 1 :=
  ⟨by decide, C10_each_id_at_most_once _ (by decide) "temp_zone1"⟩

/-- **C2, counterexample.**  One `update` at time 0 followed by
`reset()` does not reproduce the post-construction snapshot: `reset`
restores the indoor state, the clock and the history but not the
outdoor conditions, which `update` recomputed (outdoor temperature
drops below 7 °C at simulated midnight, so it no longer equals 15.0). -/
theorem C2_counterexample :
    (((ThermalModel.init).update 0 0 22 20).reset).get_current_state ≠
      (ThermalModel.init).get_current_state := by
  intro h
  have h1 := congrArg ThermalSnapshot.outdoor_temperature h
  have hlhs : (((ThermalModel.init).update 0 0 22 20).reset).get_current_state.outdoor_temperature
      = 15 + 8 * Real.sin (2 * Real.pi * (fmod 0 86400 / 3600 - 6) / 24)
          + 10 * Real.sin (2 * Real.pi * (fmod 0 (365 * 86400) / 86400 - 80) / 365) := rfl
  have hrhs : (ThermalModel.init).get_current_state.outdoor_temperature = 15 := rfl
  rw [hlhs, hrhs] at h1
  have hf : fmod (0:ℝ) 86400 = 0 := by simp [fmod]
  have hf2 : fmod (0:ℝ) (365 * 86400) = 0 := by simp [fmod]
  rw [hf, hf2] at h1
  have e1 : 2 * Real.pi * ((0:ℝ) / 3600 - 6) / 24 = -(Real.pi / 2) := by ring
  have e2 : 2 * Real.pi * ((0:ℝ) / 86400 - 80) / 365 = -(160 * Real.pi / 365) := by
    ring
  rw [e1, e2, Real.sin_neg, Real.sin_neg, Real.sin_pi_div_two] at h1
  have hs : 0 < Real.sin (160 * Real.pi / 365) := by
    apply Real.sin_pos_of_pos_of_lt_pi
    · positivity
    · rw [div_lt_iff₀ (by norm_num : (0:ℝ) < 365)]
      have := Real.pi_pos
      linarith
  linarith

/-- **C2, amended.**  After any sequence of `update` calls, `reset()`
restores indoor temperature 22, wall temperature 20, indoor humidity
45 and time 0 and empties the history, while the outdoor temperature
and humidity keep the values of the last outdoor-condition update. -/
theorem C2_reset_behavior (params : ThermalParams)
    (steps : List (ℝ × ℝ × ℝ × ℝ)) :
    (((ThermalModel.init params).runUpdates steps).reset).get_current_state =
      { indoor_temperature := 22
        wall_temperature := 20
        indoor_humidity := 45
        outdoor_temperature :=
          ((ThermalModel.init params).runUpdates steps).outdoor_temp
        outdoor_humidity :=
          ((ThermalModel.init params).runUpdates steps).outdoor_humidity
        time := 0 } ∧
    (((ThermalModel.init params).runUpdates steps).reset).history = [] :=
  ⟨rfl, rfl⟩

/-- **C7, confirmed.**  For control outputs in `[-100, 100]`, the energy
consumption of a step is non-negative, and whenever the derived heating
or cooling load is non-zero it strictly exceeds the idle baseline
(the energy computed when both loads are zero). -/
theorem C7_energy_consumption (t h : ℝ)
    (_ht1 : -100 ≤ t) (_ht2 : t ≤ 100) (_hh1 : -100 ≤ h) (_hh2 : h ≤ 100) :
    0 ≤ calculate_energy_consumption
      (max 0 t / 100 * hvac_heating_capacity)
      (max 0 (-t) / 100 * hvac_cooling_capacity) ∧
    ((max 0 t / 100 * hvac_heating_capacity ≠ 0 ∨
        max 0 (-t) / 100 * hvac_cooling_capacity ≠ 0) →
      calculate_energy_consumption 0 0 <
        calculate_energy_consumption
          (max 0 t / 100 * hvac_heating_capacity)
          (max 0 (-t) / 100 * hvac_cooling_capacity)) := by
  have hH : 0 ≤ max 0 t / 100 * hvac_heating_capacity := by
    have := le_max_left (0:ℝ) t
    unfold hvac_heating_capacity
    positivity
  have hC : 0 ≤ max 0 (-t) / 100 * hvac_cooling_capacity := by
    have := le_max_left (0:ℝ) (-t)
    unfold hvac_cooling_capacity
    positivity
  have hbase : calculate_energy_consumption 0 0 = 100 := by
    simp [calculate_energy_consumption]
  constructor
  · unfold calculate_energy_consumption hvac_efficiency
    have h1 : 0 ≤ max 0 t / 100 * hvac_heating_capacity / (9 / 10) := by
      positivity
    have h2 : 0 ≤ max 0 (-t) / 100 * hvac_cooling_capacity / (5 / 2) := by
      positivity
    split_ifs <;> linarith
  · intro hnz
    have hfan : ((max 0 t / 100 * hvac_heating_capacity > 0) ∨
        (max 0 (-t) / 100 * hvac_cooling_capacity > 0)) := by
      rcases hnz with hnz | hnz
      · exact Or.inl (lt_of_le_of_ne hH (Ne.symm hnz))
      · exact Or.inr (lt_of_le_of_ne hC (Ne.symm hnz))
    rw [hbase]
    unfold calculate_energy_consumption hvac_efficiency
    have h1 : 0 ≤ max 0 t / 100 * hvac_heating_capacity / (9 / 10) := by
      positivity
    have h2 : 0 ≤ max 0 (-t) / 100 * hvac_cooling_capacity / (5 / 2) := by
      positivity
    rw [if_pos hfan]
    linarith

/-- Witness for `C7_energy_consumption` at full heating output. -/
theorem C7_energy_consumption_witness :
    0 ≤ calculate_energy_consumption
      (max 0 (100:ℝ) / 100 * hvac_heating_capacity)
      (max 0 (-(100:ℝ)) / 100 * hvac_cooling_capacity) ∧
    calculate_energy_consumption 0 0 <
      calculate_energy_consumption
        (max 0 (100:ℝ) / 100 * hvac_heating_capacity)
        (max 0 (-(100:ℝ)) / 100 * hvac_cooling_capacity) := by
  have hc := C7_energy_consumption 100 0 (by norm_num) (by norm_num)
    (by norm_num) (by norm_num)
  refine ⟨hc.1, hc.2 (Or.inl ?_)⟩
  unfold hvac_heating_capacity
  norm_num

end HVAC
